import Mathlib

/-!
Verification development for the YouTube scam-detector pipeline
(`supervisor.py`, `app.py`, `main.py`, `backend.py`).

Strings are modelled as `List Char` (Python `str` slicing, `startswith`,
`replace` and regex scanning all operate on character sequences).
The two external collaborators are modelled explicitly:
the transcript store (`youtube_transcript_api`) as data passed in, and the
LLM service as a function from prompt to `Except` result.
-/

/-! ## URL → video id extraction (`extract_video_id`, identical in all four files)

The Python code applies `re.search` with the ordered patterns
`(?:v=|\/)([0-9A-Za-z_-]{11}).*` and `(?:youtu\.be\/)([0-9A-Za-z_-]{11})`.
`re.search` tries the pattern at each start position from the left and
returns the first capture.  The trailing `.*` always matches and binds
nothing, so it is dropped.
-/

/-- Character class `[0-9A-Za-z_-]` of the regexes. -/
def isIdChar (c : Char) : Bool :=
  c.isDigit || c.isUpper || c.isLower || c = '_' || c = '-'

/-- `([0-9A-Za-z_-]{11})`: capture exactly 11 class characters at the
current position, failing if fewer are available. -/
def idToken (cs : List Char) : Option (List Char) :=
  let t := cs.take 11
  if t.length = 11 ∧ t.all isIdChar = true then some t else none

/-- Match a literal character sequence at the current position, returning
the remaining input. -/
def matchLit : List Char → List Char → Option (List Char)
  | [], cs => some cs
  | _ :: _, [] => none
  | p :: ps, c :: cs => if c = p then matchLit ps cs else none

/-- The first pattern `(?:v=|\/)([0-9A-Za-z_-]{11})` at one position:
the alternation tries `v=` first, then `/`, each followed by the capture. -/
def matchP1At (cs : List Char) : Option (List Char) :=
  ((matchLit ['v', '='] cs).bind idToken) <|> ((matchLit ['/'] cs).bind idToken)

/-- The second pattern `(?:youtu\.be\/)([0-9A-Za-z_-]{11})` at one position. -/
def matchP2At (cs : List Char) : Option (List Char) :=
  (matchLit ['y', 'o', 'u', 't', 'u', '.', 'b', 'e', '/'] cs).bind idToken

/-- `re.search` scan for pattern 1: leftmost position wins.  (Both patterns
need at least 12 characters, so the empty tail position never matches.) -/
def searchP1 : List Char → Option (List Char)
  | [] => none
  | c :: cs => matchP1At (c :: cs) <|> searchP1 cs

/-- `re.search` scan for pattern 2. -/
def searchP2 : List Char → Option (List Char)
  | [] => none
  | c :: cs => matchP2At (c :: cs) <|> searchP2 cs

/-- `extract_video_id` (supervisor.py 23-32, app.py 29-39, main.py 31-41,
backend.py 78-87 — all four files are character-identical): try the
patterns in order, return the first match's capture, else `None`. -/
def extract_video_id (url : List Char) : Option (List Char) :=
  match searchP1 url with
  | some v => some v
  | none => searchP2 url

/-! Spec-side scanner used to state C1: does the string contain, at any
position, the literal `pat` immediately followed by an 11-character token
over `[0-9A-Za-z_-]`?  Written from the claim's words, to be compared with
the behaviour of `extract_video_id`. -/

/-- One position of the spec-side scanner. -/
def hitAt (pat : List Char) (cs : List Char) : Bool :=
  ((matchLit pat cs).bind idToken).isSome

/-- Whole-string spec-side scanner. -/
def occursWithId (pat : List Char) : List Char → Bool
  | [] => hitAt pat []
  | c :: cs => hitAt pat (c :: cs) || occursWithId pat cs

/-! ## Transcript store collaborator (`youtube_transcript_api`)

A caption track (`Transcript`) carries a language code and whether it is
auto-generated; `segments` is the list of segment texts its `fetch()`
returns.  `isTranslatedTo` is `none` for an original track and `some lang`
for the result of `Transcript.translate(lang)` (the translated text itself
is not modelled — no claim depends on it, only on *which* track is chosen
and whether it was translated).

`TranscriptList.find_transcript(codes)` iterates the requested language
codes in order and, per the library's docstring, searches the manually
created tracks first and the generated ones only if none are found;
`find_generated_transcript` / `find_manually_created_transcript` search a
single one of the two dictionaries.  Iterating a `TranscriptList` yields
the manually created tracks followed by the generated ones.
-/

structure Track where
  lang : String
  isGenerated : Bool
  isTranslatedTo : Option String := none
  segments : List (List Char) := []
deriving DecidableEq

/-- The two dictionaries of a `TranscriptList`, in iteration order. -/
structure TranscriptList where
  manuallyCreated : List Track
  generated : List Track
deriving DecidableEq

/-- `Transcript.translate(target)`: a track in the target language,
keeping the manual/generated flag of its source. -/
def Track.translate (t : Track) (target : String) : Track :=
  { t with lang := target, isTranslatedTo := some target }

/-- Look a language code up in one transcript dictionary. -/
def findInDict (d : List Track) (lang : String) : Option Track :=
  d.find? (fun t => t.lang == lang)

/-- Try each dictionary in order for one language code. -/
def findInDictsOne : List (List Track) → String → Option Track
  | [], _ => none
  | d :: ds, l =>
    match findInDict d l with
    | some t => some t
    | none => findInDictsOne ds l

/-- `TranscriptList._find_transcript`: for each requested language code in
order, try each given dictionary in order. -/
def findByLangs (dicts : List (List Track)) : List String → Option Track
  | [] => none
  | l :: ls =>
    match findInDictsOne dicts l with
    | some t => some t
    | none => findByLangs dicts ls

/-- `find_transcript`: manual tracks first, then generated ones. -/
def find_transcript (tl : TranscriptList) (langs : List String) : Option Track :=
  findByLangs [tl.manuallyCreated, tl.generated] langs

/-- `find_generated_transcript`: generated tracks only. -/
def find_generated_transcript (tl : TranscriptList) (langs : List String) : Option Track :=
  findByLangs [tl.generated] langs

/-- `find_manually_created_transcript`: manual tracks only. -/
def find_manually_created_transcript (tl : TranscriptList) (langs : List String) : Option Track :=
  findByLangs [tl.manuallyCreated] langs

/-! ## Caption track selection, per variant -/

/-- Track selection of supervisor.py 40-61 and backend.py 132-153
(character-identical): `find_transcript(['ko','en'])`, else
`find_generated_transcript(['ko','en'])`, else
`find_generated_transcript(['en']).translate('ko')`, else translate the
first track the list iterator yields; every intermediate failure is
swallowed by a bare `except`. -/
def select_sup (tl : TranscriptList) : Option Track :=
  match find_transcript tl ["ko", "en"] with
  | some t => some t
  | none =>
    match find_generated_transcript tl ["ko", "en"] with
    | some t => some t
    | none =>
      match find_generated_transcript tl ["en"] with
      | some t => some (t.translate "ko")
      | none => ((tl.manuallyCreated ++ tl.generated).head?).map (fun t => t.translate "ko")

/-- Track selection of app.py 49-65: `find_transcript(['ko'])`, else
`find_transcript(['en'])`, else `find_generated_transcript(['ko'])`, else
`find_manually_created_transcript(['en']).translate('ko')`, else
`find_generated_transcript(['en']).translate('ko')`; if the last lookup
raises, `NoTranscriptFound` escapes to the outer handler (`none` here). -/
def select_app (tl : TranscriptList) : Option Track :=
  match find_transcript tl ["ko"] with
  | some t => some t
  | none =>
    match find_transcript tl ["en"] with
    | some t => some t
    | none =>
      match find_generated_transcript tl ["ko"] with
      | some t => some t
      | none =>
        match find_manually_created_transcript tl ["en"] with
        | some t => some (t.translate "ko")
        | none => (find_generated_transcript tl ["en"]).map (fun t => t.translate "ko")

/-- Track selection of main.py 58-67: `find_transcript(['ko','en'])`, else
`find_generated_transcript(['ko','en'])`, else
`find_manually_created_transcript(['en']).translate('ko')`; if the last
lookup raises, `NoTranscriptFound` escapes to the outer handler. -/
def select_main (tl : TranscriptList) : Option Track :=
  match find_transcript tl ["ko", "en"] with
  | some t => some t
  | none =>
    match find_generated_transcript tl ["ko", "en"] with
    | some t => some t
    | none => (find_manually_created_transcript tl ["en"]).map (fun t => t.translate "ko")

/-! ## Fetch & normalisation

`TextFormatter.format_transcript` joins the fetched segment texts with
`"\n"`; the callers then apply `.replace("\n", " ")`.  Replacing the
single-character pattern `"\n"` by `" "` is a character-wise map. -/

/-- One character of Python `.replace("\n", " ")`. -/
def swapNl (c : Char) : Char := if c = '\n' then ' ' else c

/-- `TextFormatter.format_transcript(transcript.fetch()).replace("\n", " ")`. -/
def formatNormalize (segs : List (List Char)) : List Char :=
  (List.intercalate ['\n'] segs).map swapNl

/-! ## Error strings of the sources -/

/-- The `startswith` token of the loader's error check. -/
def errTok : List Char := ("ERROR").toList

/-- supervisor.py 71 / app.py 72 / main.py 76 / backend.py 163. -/
def captionsUnavailableMsg : List Char := ("ERROR: 이 영상에는 자막이 없습니다.").toList

/-- supervisor.py 64 / backend.py 156. -/
def noSuitableMsg : List Char := ("ERROR: 적절한 자막을 찾을 수 없습니다.").toList

/-- Head of supervisor.py 73 / app.py 74 / main.py 78 / backend.py 165. -/
def extractFailPre : List Char := ("ERROR: 자막 추출 실패 (").toList

/-- Loader error for an unmatched URL (identical in all four files). -/
def invalidUrlMsg : List Char := ("유효하지 않은 유튜브 URL입니다.").toList

/-- Head of the analyst's non-analysis notice (identical in all four files). -/
def noticePre : List Char := ("분석 불가: ").toList

/-- app.py 102: returned when `GOOGLE_API_KEY` is absent. -/
def apiKeyMissingMsg : List Char := ("Google API Key가 설정되지 않았습니다.").toList

/-- Head of app.py 139: wrapper for an exception raised during analysis. -/
def aiFailPre : List Char := ("AI 분석 중 오류 발생: ").toList

/-- A Python `KeyError`/`TypeError` raised when the analyst reads
`state['script_text']` on a state that never got one; modelled as one
uncaught exception message (no claim depends on its text). -/
def pyKeyErrMsg : List Char := ("KeyError: script_text").toList

/-! ## `get_video_script`

The listing call (`YouTubeTranscriptApi().list(video_id)`) can raise
`TranscriptsDisabled` or `NoTranscriptFound`, or some other exception
`e`; a successful call yields the `TranscriptList`.  That outcome is the
collaborator input of the model.  Track `fetch()` and formatting are
modelled as total (their failure modes decide no claim). -/

inductive ListingErr where
  | disabled
  | notFound
  | other (msg : List Char)
deriving DecidableEq

/-- `get_video_script` of supervisor.py 35-73 and backend.py 128-165:
on a listing failure the outer handlers produce the `ERROR:` strings; on
success, if the whole selection chain leaves `transcript` as `None` the
no-suitable-track string is returned, else the fetched track is formatted and
newline-normalised. -/
def get_video_script_sup (listing : Except ListingErr TranscriptList) : List Char :=
  match listing with
  | Except.error ListingErr.disabled => captionsUnavailableMsg
  | Except.error ListingErr.notFound => captionsUnavailableMsg
  | Except.error (ListingErr.other m) => extractFailPre ++ m ++ [')']
  | Except.ok tl =>
    match select_sup tl with
    | some t => formatNormalize t.segments
    | none => noSuitableMsg

/-- `get_video_script` of app.py 41-74: as above, but a selection chain
that ends in an uncaught `NoTranscriptFound` is caught by the outer
`except (TranscriptsDisabled, NoTranscriptFound)` handler. -/
def get_video_script_app (listing : Except ListingErr TranscriptList) : List Char :=
  match listing with
  | Except.error ListingErr.disabled => captionsUnavailableMsg
  | Except.error ListingErr.notFound => captionsUnavailableMsg
  | Except.error (ListingErr.other m) => extractFailPre ++ m ++ [')']
  | Except.ok tl =>
    match select_app tl with
    | some t => formatNormalize t.segments
    | none => captionsUnavailableMsg

/-- `get_video_script` of main.py 46-78: same outer handlers as app.py. -/
def get_video_script_main (listing : Except ListingErr TranscriptList) : List Char :=
  match listing with
  | Except.error ListingErr.disabled => captionsUnavailableMsg
  | Except.error ListingErr.notFound => captionsUnavailableMsg
  | Except.error (ListingErr.other m) => extractFailPre ++ m ++ [')']
  | Except.ok tl =>
    match select_main tl with
    | some t => formatNormalize t.segments
    | none => captionsUnavailableMsg

/-! ## Pipeline state and LangGraph node contract

`AgentState` is the TypedDict threading through the graph; a node returns
a partial update (only the keys it mentions), which LangGraph merges into
the state key-by-key.  The graph is started from `{"youtube_url": url}`,
so every other key is initially unset (modelled as `none`). -/

structure AgentState where
  youtube_url : List Char
  video_id : Option (List Char) := none
  script_text : Option (List Char) := none
  analysis_result : Option (List Char) := none
  error : Option (List Char) := none
deriving DecidableEq

/-- A node's partial update: an outer `some` means the node's returned
dict contains the key (possibly with value `None`, the inner `none`). -/
structure StateUpdate where
  video_id : Option (Option (List Char)) := none
  script_text : Option (Option (List Char)) := none
  analysis_result : Option (Option (List Char)) := none
  error : Option (Option (List Char)) := none
deriving DecidableEq

/-- LangGraph's merge of a node's returned dict into the state. -/
def applyUpdate (s : AgentState) (u : StateUpdate) : AgentState :=
  { youtube_url := s.youtube_url
    video_id := u.video_id.getD s.video_id
    script_text := u.script_text.getD s.script_text
    analysis_result := u.analysis_result.getD s.analysis_result
    error := u.error.getD s.error }

/-- The LLM collaborator: one prompt in, either a reply or a raised
exception (message) out. -/
structure LLM where
  respond : List Char → Except (List Char) (List Char)

/-! ## Prompt templates

Each variant splices `script[:cap]` into a fixed f-string; the template is
therefore a fixed head, the capped slice, and a fixed tail. -/

/-- Text before the transcript slice in supervisor.py 98-103 and
backend.py 190-195 (character-identical templates). -/
def promptHead_sup : List Char := ("\n    당신은 소비자 보호 및 금융 사기 예방 전문가입니다.\n    아래 텍스트(유튜브 스크립트 등)를 정밀 분석하여, \x27불법 투자 권유\x27, \x27기만적 상품 판매\x27, 또는 \x27스팸성 콘텐츠\x27인지 판별하세요.\n\n    [분석할 스크립트]\n    \"").toList

/-- Text after the transcript slice in supervisor.py 103-122 /
backend.py 195-214. -/
def promptTail_sup : List Char := ("\" ... (이하 생략)\n\n    [중점 분석 항목]\n    1. **심리적 조작 및 공포 마케팅 (Fear & Greed)**\n    2. **비현실적 약속 및 과장 광고**\n    3. **위험한 행동 유도 (Call to Action)**\n\n    [최종 답변 형식]\n    ## 🚨 허위 광고 등 유해 콘텐츠 분석 결과\n\n    **1. 판정**: [고위험 스팸 및 사기 의심 / 주의 필요(과장 광고) / 안전한 콘텐츠]\n    **2. 위험도 점수**: [0~100점] (점수가 높을수록 위험)\n\n    **3. 주요 적발 소견**:\n       - **[자극적 키워드]**:\n       - **[심리 조작 기법]**:\n       - **[유도 방식]**:\n\n    **4. 최종 요약**:\n    ").toList

/-- supervisor.py 98-122 / backend.py 190-214: the prompt embeds
`script[:5000]`. -/
def prompt_sup (script : List Char) : List Char :=
  promptHead_sup ++ script.take 5000 ++ promptTail_sup

/-- Text before the transcript slice in app.py 109-114. -/
def promptHead_app : List Char := ("\n        당신은 노인 소비자 보호 및 금융 사기 예방 전문가입니다.\n        아래 텍스트(유튜브 스크립트 등)를 정밀 분석하여, 판단력이 흐려지기 쉬운 고령층을 타깃으로 한 \x27불법 투자 권유\x27, \x27기만적 상품 판매\x27, 또는 \x27스팸성 콘텐츠\x27인지 판별하세요.\n\n        [분석할 스크립트]\n        \"").toList

/-- Text after the transcript slice in app.py 114-134. -/
def promptTail_app : List Char := ("\" ... (길이 제한으로 일부 생략)\n\n        [중점 분석 항목]\n        1. **심리적 조작 및 공포 마케팅**: 건강 공포심 유발, 거짓 긴급성 강조.\n        2. **비현실적 약속 및 과장 광고**: 원금 보장, 기적의 치료법 등.\n        3. **위험한 행동 유도**: 리딩방 유입, 특정 물품 구매 강요.\n\n        [최종 답변 형식]\n        ## 🚨 노인 대상 유해 콘텐츠 분석 결과\n\n        **1. 판정**: [고위험 스팸 및 사기 의심 / 주의 필요(과장 광고) / 안전한 콘텐츠]\n        **2. 위험도 점수**: [0~100점]\n        \n        **3. 주요 적발 소견**:\n           - **[자극적 키워드]**:\n           - **[심리 조작 기법]**:\n           - **[유도 방식]**:\n\n        **4. 소비자 행동 지침**:\n           - (구체적인 행동 가이드)\n        ").toList

/-- app.py 109-134: the prompt embeds `script[:10000]`. -/
def prompt_app (script : List Char) : List Char :=
  promptHead_app ++ script.take 10000 ++ promptTail_app

/-- Text before the transcript slice in main.py 111-116. -/
def promptHead_main : List Char := ("\n    당신은 노인 소비자 보호 및 금융 사기 예방 전문가입니다.\n아래 텍스트(유튜브 스크립트 등)를 정밀 분석하여, 판단력이 흐려지기 쉬운 고령층을 타깃으로 한 \x27불법 투자 권유\x27, \x27기만적 상품 판매\x27, 또는 \x27스팸성 콘텐츠\x27인지 판별하세요.\n\n[분석할 스크립트]\n\"").toList

/-- Text after the transcript slice in main.py 116-146. -/
def promptTail_main : List Char := ("\" ... (이하 생략)\n\n[중점 분석 항목]\n1. **심리적 조작 및 공포 마케팅 (Fear & Greed)**:\n   - \"병원에서도 알려주지 않는\", \"지금 모르면 큰일 나는\" 등 건강에 대한 과도한 공포심 유발.\n   - \"정부 지원금 소멸 예정\", \"마감 임박\" 등 거짓 긴급성을 강조하여 이성적 판단 방해.\n   - \"자식에게 짐이 되지 않으려면\", \"노후 파산\" 등 노인 빈곤/고립 심리를 악용하는 멘트.\n\n2. **비현실적 약속 및 과장 광고**:\n   - \"원금 100% 보장\", \"무조건 오르는 종목\", \"기적의 치료법\" 등 확정적 단어 사용.\n   - 구체적인 근거 없이 \"비밀 정보\", \"세력 매집주\"라며 정보의 희소성을 가장.\n   - 제도권 금융기관이나 공공기관을 사칭하거나 모호하게 연관 지어 신뢰를 날조.\n\n3. **위험한 행동 유도 (Call to Action)**:\n   - \"무료 리딩방 입장\", \"상담 번호로 문자 전송\", \"고정 댓글 링크 클릭\" 등 외부 채널 유입 강요.\n   - 영상 내용과 무관한 특정 건강식품, 코인, 비상장 주식 등의 구매 유도.\n\n[최종 답변 형식]\n## 🚨 노인 대상 유해 콘텐츠 분석 결과\n\n**1. 판정**: [고위험 스팸 및 사기 의심 / 주의 필요(과장 광고) / 안전한 콘텐츠]\n**2. 위험도 점수**: [0~100점] (점수가 높을수록 위험)\n\n**3. 주요 적발 소견**:\n   - **[자극적 키워드]**: (스크립트 내 \"원금 보장\", \"기적의 효능\" 등 문제 발언 직접 인용)\n   - **[심리 조작 기법]**: (어르신들의 불안감을 어떻게 조장했는지 분석)\n   - **[유도 방식]**: (카카오톡방, 전화번호 수집 등 구체적인 유도 패턴 지적)\n\n**4. 소비자 행동 지침**:\n   - (이 콘텐츠를 접한 노인 사용자가 취해야 할 구체적인 행동 가이드. 예: \"절대 링크를 누르지 마세요\", \"자녀와 상의하세요\")\n    ").toList

/-- main.py 111-146: the prompt embeds `script[:5000]`. -/
def prompt_main (script : List Char) : List Char :=
  promptHead_main ++ script.take 5000 ++ promptTail_main

/-! ## Node functions

Each analyst returns the number of LLM invocations it performed together
with either a state update (normal return) or an uncaught exception
message (`Except.error`) that propagates out of the node.  The
`envGoogleKey` argument is the ambient `GOOGLE_API_KEY` environment
variable; only app.py reads it — the other variants never consult the
environment, so their bodies ignore it. -/

/-- `script_loader_node` of supervisor.py 76-86 (app.py 77-90,
main.py 82-97 and backend.py 168-178 are identical except for the
`get_video_script` variant they call, which is passed in here as the
already-computed `script`): reject an unmatched URL, route any
`ERROR`-prefixed script into `error` with `script_text = None`, else
publish `video_id` and `script_text`. -/
def script_loader_node (script : List Char) (state : AgentState) : StateUpdate :=
  match extract_video_id state.youtube_url with
  | none => { error := some (some invalidUrlMsg) }
  | some vid =>
    if errTok.isPrefixOf script then
      { error := some (some script), script_text := some none }
    else
      { video_id := some (some vid), script_text := some (some script) }

/-- `text_analysis_node` of supervisor.py 88-125 and (async, same body)
backend.py 180-217: skip on an upstream error; otherwise build the prompt
and invoke the LLM once with no credential check and no exception
handler — a raised exception leaves the node uncaught. -/
def text_analysis_node_sup (_envGoogleKey : Option (List Char)) (llm : LLM)
    (state : AgentState) : Nat × Except (List Char) StateUpdate :=
  match state.error with
  | some e => (0, Except.ok { analysis_result := some (some (noticePre ++ e)) })
  | none =>
    match state.script_text with
    | none => (0, Except.error pyKeyErrMsg)
    | some script =>
      match llm.respond (prompt_sup script) with
      | Except.ok r => (1, Except.ok { analysis_result := some (some r) })
      | Except.error m => (1, Except.error m)

/-- `text_analysis_node` of main.py 99-149: same shape as the supervisor
variant (no credential check, no exception handler), with main.py's
prompt. -/
def text_analysis_node_main (_envGoogleKey : Option (List Char)) (llm : LLM)
    (state : AgentState) : Nat × Except (List Char) StateUpdate :=
  match state.error with
  | some e => (0, Except.ok { analysis_result := some (some (noticePre ++ e)) })
  | none =>
    match state.script_text with
    | none => (0, Except.error pyKeyErrMsg)
    | some script =>
      match llm.respond (prompt_main script) with
      | Except.ok r => (1, Except.ok { analysis_result := some (some r) })
      | Except.error m => (1, Except.error m)

/-- `text_analysis_node` of app.py 92-139: skip on an upstream error;
read the script; then check `GOOGLE_API_KEY` and return an error update
without invoking the LLM when it is absent; otherwise invoke the LLM once
inside `try`, turning a raised exception into an `error` update. -/
def text_analysis_node_app (envGoogleKey : Option (List Char)) (llm : LLM)
    (state : AgentState) : Nat × Except (List Char) StateUpdate :=
  match state.error with
  | some e => (0, Except.ok { analysis_result := some (some (noticePre ++ e)) })
  | none =>
    match state.script_text with
    | none => (0, Except.error pyKeyErrMsg)
    | some script =>
      match envGoogleKey with
      | none => (0, Except.ok { error := some (some apiKeyMissingMsg) })
      | some _ =>
        match llm.respond (prompt_app script) with
        | Except.ok r => (1, Except.ok { analysis_result := some (some r) })
        | Except.error m => (1, Except.ok { error := some (some (aiFailPre ++ m)) })

/-- The compiled supervisor.py graph (`build_graph` + `invoke`): start
from `{"youtube_url": url}`, run the loader, merge, run the analyst,
merge.  Returns the LLM invocation count and either the final state or an
exception that escaped the analyst. -/
def run_graph_sup (listing : Except ListingErr TranscriptList)
    (envGoogleKey : Option (List Char)) (llm : LLM) (url : List Char) :
    Nat × Except (List Char) AgentState :=
  let s0 : AgentState := { youtube_url := url }
  let s1 := applyUpdate s0 (script_loader_node (get_video_script_sup listing) s0)
  match text_analysis_node_sup envGoogleKey llm s1 with
  | (n, Except.ok u) => (n, Except.ok (applyUpdate s1 u))
  | (n, Except.error m) => (n, Except.error m)

/-! ## Concrete inputs used by witnesses and counterexamples -/

/-- A URL with no `watch?v=`/`youtu.be` pattern but an 11-character
path segment after `/`. -/
def urlNoPattern : List Char := ("http://a/abcdefghijk").toList

/-- A canonical watch URL whose host contains an earlier 11-character
run after `/`. -/
def urlShadow : List Char := ("https://tvchannel11.com/watch?v=dQw4w9WgXcQ").toList

/-- The canonical 11-character video id used in examples. -/
def idDQw : List Char := ("dQw4w9WgXcQ").toList

/-- An auto-generated Korean track. -/
def koGenTrack : Track := { lang := "ko", isGenerated := true, segments := [("안녕하세요").toList] }

/-- A manually created English track. -/
def enManTrack : Track := { lang := "en", isGenerated := false, segments := [("hello there").toList] }

/-- An auto-generated English track. -/
def enGenTrack : Track := { lang := "en", isGenerated := true, segments := [("auto caption").toList] }

/-- A manually created Korean track with a newline inside a segment. -/
def koManTrack : Track := { lang := "ko", isGenerated := false, segments := [("수동\n자막").toList, ("둘째 줄").toList] }

/-- A manually created track whose caption text itself starts with `ERROR`. -/
def errScriptTrack : Track := { lang := "ko", isGenerated := false, segments := [("ERROR framed caption").toList] }

/-- Store state: an auto-generated Korean track and a manual English track. -/
def tlGenKoVsManEn : TranscriptList := { manuallyCreated := [enManTrack], generated := [koGenTrack] }

/-- Store state: only an auto-generated English track. -/
def tlOnlyGenEn : TranscriptList := { manuallyCreated := [], generated := [enGenTrack] }

/-- Store state: only a manual Korean track. -/
def tlKoManual : TranscriptList := { manuallyCreated := [koManTrack], generated := [] }

/-- Store state: only `errScriptTrack`. -/
def tlErrScript : TranscriptList := { manuallyCreated := [errScriptTrack], generated := [] }

/-- An LLM stub that raises on every call. -/
def llmBoom : LLM := { respond := fun _ => Except.error (("boom").toList) }

/-- A pipeline state after a successful load: no error, a script present. -/
def stateWithScript : AgentState :=
  { youtube_url := ("u").toList, script_text := some (("hello script").toList) }

/-- A pipeline state after a failed load. -/
def stateWithError : AgentState :=
  { youtube_url := ("u").toList, error := some invalidUrlMsg }

/-- A pipeline input state holding a canonical watch URL. -/
def stateWatchUrl : AgentState :=
  { youtube_url := ("https://www.youtube.com/watch?v=dQw4w9WgXcQ").toList }

/-- A transcript far beyond both truncation caps. -/
def longScript : List Char := List.replicate 10001 'a'

/-! ## Helper lemmas -/

/-- An `Option` alternation is `none` exactly when both sides are. -/
theorem optOrElseNone {α : Type} (a b : Option α) :
    (a <|> b) = none ↔ a = none ∧ b = none := by
  cases a <;> simp

/-- `isSome` is `false` exactly on `none`. -/
theorem optIsSomeFalse {α : Type} (o : Option α) : o.isSome = false ↔ o = none := by
  cases o <;> simp

/-- A literal matches exactly when it is a prefix, leaving the tail. -/
theorem matchLit_some_iff : ∀ p cs r : List Char, matchLit p cs = some r ↔ cs = p ++ r
  | [], cs, r => by simp [matchLit, eq_comm]
  | p :: ps, [], r => by simp [matchLit]
  | p :: ps, c :: cs, r => by
    by_cases h : c = p
    · subst h
      simp only [matchLit, if_pos rfl, List.cons_append, List.cons.injEq, true_and]
      exact matchLit_some_iff ps cs r
    · simp [matchLit, h]

/-- What a successful 11-character capture yields. -/
theorem idToken_sound (cs id : List Char) (h : idToken cs = some id) :
    id.length = 11 ∧ id.all isIdChar = true ∧ cs = id ++ cs.drop 11 := by
  simp only [idToken] at h
  split_ifs at h with hc
  · obtain ⟨h1, h2⟩ := hc
    obtain rfl : cs.take 11 = id := by injection h
    exact ⟨h1, h2, (List.take_append_drop 11 cs).symm⟩

/-- Pattern-1 search fails exactly when neither `v=` nor `/` is followed
by an 11-character token anywhere in the string. -/
theorem searchP1_none_iff (cs : List Char) :
    searchP1 cs = none ↔
      occursWithId ['v', '='] cs = false ∧ occursWithId ['/'] cs = false := by
  induction cs with
  | nil => simp [searchP1, occursWithId, hitAt, matchLit]
  | cons c cs ih =>
    simp only [searchP1, occursWithId, matchP1At]
    rw [optOrElseNone, optOrElseNone, Bool.or_eq_false_iff, Bool.or_eq_false_iff, ih]
    unfold hitAt
    rw [optIsSomeFalse, optIsSomeFalse]
    tauto

/-- If the scanner misses everywhere on `xs ++ ys`, it misses at the
start of `ys`. -/
theorem occursFalseAtDrop (pat : List Char) :
    ∀ xs ys : List Char, occursWithId pat (xs ++ ys) = false → hitAt pat ys = false
  | [], ys, h => by
    cases ys with
    | nil => simpa [occursWithId] using h
    | cons y t =>
      simp only [List.nil_append, occursWithId, Bool.or_eq_false_iff] at h
      exact h.1
  | x :: xs, ys, h => by
    simp only [List.cons_append, occursWithId, Bool.or_eq_false_iff] at h
    exact occursFalseAtDrop pat xs ys h.2

/-- If no `/` is followed by an 11-character token, the `youtu.be/`
pattern cannot match anywhere either. -/
theorem searchP2_eq_none (cs : List Char) (h : occursWithId ['/'] cs = false) :
    searchP2 cs = none := by
  induction cs with
  | nil => rfl
  | cons c cs ih =>
    have h2 : occursWithId ['/'] cs = false := by
      simp only [occursWithId, Bool.or_eq_false_iff] at h
      exact h.2
    have hm : matchP2At (c :: cs) = none := by
      rcases hmatch : matchLit ['y', 'o', 'u', 't', 'u', '.', 'b', 'e', '/'] (c :: cs) with _ | r
      · simp [matchP2At, hmatch]
      · have hd : c :: cs = ['y', 'o', 'u', 't', 'u', '.', 'b', 'e'] ++ ('/' :: r) := by
          simpa using (matchLit_some_iff _ _ _).1 hmatch
        have hsuf : hitAt ['/'] ('/' :: r) = false :=
          occursFalseAtDrop ['/'] ['y', 'o', 'u', 't', 'u', '.', 'b', 'e'] ('/' :: r) (by rw [← hd]; exact h)
        have hnone : idToken r = none := by
          simpa [hitAt, matchLit, optIsSomeFalse] using hsuf
        simp [matchP2At, hmatch, hnone]
    simp [searchP2, hm, ih h2]

/-- Every capture of the pattern-1 search is an 11-character class token
sitting right after a `v=` or a `/` in the input. -/
theorem searchP1_sound :
    ∀ cs tok : List Char, searchP1 cs = some tok →
      tok.length = 11 ∧ tok.all isIdChar = true ∧
      ∃ pre rest, cs = pre ++ ('v' :: '=' :: (tok ++ rest)) ∨ cs = pre ++ ('/' :: (tok ++ rest))
  | [], tok, h => by simp [searchP1] at h
  | c :: cs, tok, h => by
    simp only [searchP1] at h
    rcases ha : matchP1At (c :: cs) with _ | t
    · rw [ha] at h
      simp only [Option.none_orElse] at h
      obtain ⟨h1, h2, pre, rest, hor⟩ := searchP1_sound cs tok h
      exact ⟨h1, h2, c :: pre, rest, by
        rcases hor with hor | hor
        · exact Or.inl (by rw [List.cons_append, hor])
        · exact Or.inr (by rw [List.cons_append, hor])⟩
    · rw [ha] at h
      simp only [Option.some_orElse, Option.some.injEq] at h
      subst h
      simp only [matchP1At] at ha
      rcases hv : (matchLit ['v', '='] (c :: cs)).bind idToken with _ | t'
      · rw [hv] at ha
        simp only [Option.none_orElse] at ha
        obtain ⟨r, hr, hid⟩ := Option.bind_eq_some.1 ha
        obtain ⟨h1, h2, hdec⟩ := idToken_sound r t hid
        have hcs : c :: cs = ['/'] ++ r := (matchLit_some_iff _ _ _).1 hr
        obtain ⟨d, hd2⟩ : ∃ d, r = t ++ d := ⟨r.drop 11, hdec⟩
        exact ⟨h1, h2, [], d, Or.inr (by rw [hcs, hd2]; rfl)⟩
      · rw [hv] at ha
        simp only [Option.some_orElse, Option.some.injEq] at ha
        subst ha
        obtain ⟨r, hr, hid⟩ := Option.bind_eq_some.1 hv
        obtain ⟨h1, h2, hdec⟩ := idToken_sound r t' hid
        have hcs : c :: cs = ['v', '='] ++ r := (matchLit_some_iff _ _ _).1 hr
        obtain ⟨d, hd2⟩ : ∃ d, r = t' ++ d := ⟨r.drop 11, hdec⟩
        exact ⟨h1, h2, [], d, Or.inl (by rw [hcs, hd2]; rfl)⟩

/-- Every capture of the pattern-2 search also sits right after a `/`. -/
theorem searchP2_sound :
    ∀ cs tok : List Char, searchP2 cs = some tok →
      tok.length = 11 ∧ tok.all isIdChar = true ∧
      ∃ pre rest, cs = pre ++ ('v' :: '=' :: (tok ++ rest)) ∨ cs = pre ++ ('/' :: (tok ++ rest))
  | [], tok, h => by simp [searchP2] at h
  | c :: cs, tok, h => by
    simp only [searchP2] at h
    rcases ha : matchP2At (c :: cs) with _ | t
    · rw [ha] at h
      simp only [Option.none_orElse] at h
      obtain ⟨h1, h2, pre, rest, hor⟩ := searchP2_sound cs tok h
      exact ⟨h1, h2, c :: pre, rest, by
        rcases hor with hor | hor
        · exact Or.inl (by rw [List.cons_append, hor])
        · exact Or.inr (by rw [List.cons_append, hor])⟩
    · rw [ha] at h
      simp only [Option.some_orElse, Option.some.injEq] at h
      subst h
      simp only [matchP2At] at ha
      obtain ⟨r, hr, hid⟩ := Option.bind_eq_some.1 ha
      obtain ⟨h1, h2, hdec⟩ := idToken_sound r t hid
      have hcs : c :: cs = ['y', 'o', 'u', 't', 'u', '.', 'b', 'e', '/'] ++ r :=
        (matchLit_some_iff _ _ _).1 hr
      obtain ⟨d, hd2⟩ : ∃ d, r = t ++ d := ⟨r.drop 11, hdec⟩
      exact ⟨h1, h2, ['y', 'o', 'u', 't', 'u', '.', 'b', 'e'], d,
        Or.inr (by rw [hcs, hd2]; rfl)⟩

/-- Mapping a function over an interspersed list maps the separator too. -/
theorem mapIntersperse {α β : Type} (f : α → β) (sep : α) :
    ∀ l : List α, (List.intersperse sep l).map f = List.intersperse (f sep) (l.map f)
  | [] => rfl
  | [x] => rfl
  | x :: y :: t => by
    rw [List.intersperse_cons_cons, List.map_cons, List.map_cons,
      mapIntersperse f sep (y :: t)]
    simp [List.intersperse_cons_cons]

/-- Joining with `"\n"` and then replacing newlines by spaces is joining
the newline-replaced segments with `" "`. -/
theorem formatNormalize_eq (segs : List (List Char)) :
    formatNormalize segs = List.intercalate [' '] (segs.map (List.map swapNl)) := by
  unfold formatNormalize
  simp only [List.intercalate, List.map_flatten, mapIntersperse]
  norm_num [swapNl]

/-- The normalised transcript contains no newline character. -/
theorem formatNormalize_no_newline (segs : List (List Char)) :
    ∀ c ∈ formatNormalize segs, c ≠ '\n' := by
  unfold formatNormalize
  intro c hc
  rcases List.mem_map.1 hc with ⟨a, _, rfl⟩
  unfold swapNl
  split_ifs with h
  · decide
  · exact h

/-! ## Claim theorems -/

/-- C1 (counterexample): the claim fails in both directions.
`urlNoPattern` contains neither `watch?v=` nor `youtu.be/` followed by an
11-character token, yet `extract_video_id` returns `abcdefghijk` (the run
after the bare `/`) instead of `None`; and `urlShadow` contains
`watch?v=dQw4w9WgXcQ`, yet `extract_video_id` returns the host's earlier
11-character run `tvchannel11` instead of that id. -/
theorem extract_video_id_spec_counterexample :
    (occursWithId (("watch?v=").toList) urlNoPattern = false ∧
     occursWithId (("youtu.be/").toList) urlNoPattern = false ∧
     extract_video_id urlNoPattern = some (("abcdefghijk").toList)) ∧
    (occursWithId (("watch?v=").toList) urlShadow = true ∧
     ((matchLit (("watch?v=").toList) (urlShadow.drop 24)).bind idToken) = some idDQw ∧
     extract_video_id urlShadow = some (("tvchannel11").toList) ∧
     ("tvchannel11").toList ≠ idDQw) := by
  decide

/-- C1 (amended): `extract_video_id` returns `None` exactly when the URL
has no occurrence of `v=` or `/` followed by an 11-character token over
`[0-9A-Za-z_-]`; any returned id is such a token and sits immediately
after a `v=` or a `/` in the URL (the leftmost pattern-1 occurrence, so
an earlier qualifying `/`-run shadows the `watch?v=` id); on the two
canonical URL shapes with no earlier qualifying run it returns exactly
the 11-character id. -/
theorem extract_video_id_amended :
    (∀ url : List Char, extract_video_id url = none ↔
      (occursWithId ['v', '='] url = false ∧ occursWithId ['/'] url = false)) ∧
    (∀ url tok : List Char, extract_video_id url = some tok →
      tok.length = 11 ∧ tok.all isIdChar = true ∧
      ∃ pre rest, url = pre ++ ('v' :: '=' :: (tok ++ rest)) ∨
        url = pre ++ ('/' :: (tok ++ rest))) ∧
    extract_video_id (("https://www.youtube.com/watch?v=dQw4w9WgXcQ").toList) = some idDQw ∧
    extract_video_id (("https://youtu.be/dQw4w9WgXcQ").toList) = some idDQw := by
  refine ⟨?_, ?_, by decide, by decide⟩
  · intro url
    constructor
    · intro h
      unfold extract_video_id at h
      rcases hs : searchP1 url with _ | v
      · exact (searchP1_none_iff url).1 hs
      · rw [hs] at h
        exact absurd h (by simp)
    · rintro ⟨h1, h2⟩
      unfold extract_video_id
      rw [(searchP1_none_iff url).2 ⟨h1, h2⟩]
      exact searchP2_eq_none url h2
  · intro url tok h
    unfold extract_video_id at h
    rcases hs : searchP1 url with _ | v
    · rw [hs] at h
      exact searchP2_sound url tok h
    · rw [hs] at h
      obtain rfl : v = tok := by injection h
      exact searchP1_sound url v hs

/-- C1 (witness): the amended theorem applied to the canonical watch URL
yields a well-formed 11-character id. -/
theorem extract_video_id_amended_witness :
    idDQw.length = 11 ∧ idDQw.all isIdChar = true := by
  have h := extract_video_id_amended
  obtain ⟨h1, h2, _⟩ := h.2.1 (("https://www.youtube.com/watch?v=dQw4w9WgXcQ").toList) idDQw h.2.2.1
  exact ⟨h1, h2⟩

/-- C2 (code bug, evaluation at the failing input): with an auto-generated
Korean track and a manually created English track available, every variant
selects the auto-generated Korean track — the library's
`find_transcript(['ko',...])` falls back to generated tracks before the
next language is tried — although the claim (and the priority comments in
app.py line 48 and main.py line 57) puts the manual English track ahead of
the generated Korean one. -/
theorem caption_priority_eval :
    select_sup tlGenKoVsManEn = some koGenTrack ∧
    select_app tlGenKoVsManEn = some koGenTrack ∧
    select_main tlGenKoVsManEn = some koGenTrack ∧
    koGenTrack.isGenerated = true ∧ koGenTrack.lang = "ko" ∧
    enManTrack.isGenerated = false ∧ enManTrack.lang = "en" ∧
    enManTrack ∈ tlGenKoVsManEn.manuallyCreated := by
  decide

/-- C3 (code bug, evaluation at the failing input): with only an
auto-generated English track available, every variant selects that track
untranslated — `find_transcript`/`find_generated_transcript` on `['en']`
or `['ko','en']` already succeed, so the `translate('ko')` fallbacks are
never reached — and `get_video_script` returns its raw English text,
although the claim requires a Korean-translated transcript. -/
theorem generated_english_raw_eval :
    select_sup tlOnlyGenEn = some enGenTrack ∧
    select_app tlOnlyGenEn = some enGenTrack ∧
    select_main tlOnlyGenEn = some enGenTrack ∧
    enGenTrack.isTranslatedTo = none ∧ enGenTrack.lang = "en" ∧
    enGenTrack.isGenerated = true ∧
    get_video_script_sup (Except.ok tlOnlyGenEn) = formatNormalize enGenTrack.segments ∧
    get_video_script_app (Except.ok tlOnlyGenEn) = formatNormalize enGenTrack.segments := by
  decide

/-- C4 (confirmed): on a state whose `error` field is set, every analyst
variant performs zero LLM invocations and returns only the non-analysis
notice wrapping the existing error message. -/
theorem analyst_skips_llm_on_error (env : Option (List Char)) (llm : LLM)
    (s : AgentState) (e : List Char) (h : s.error = some e) :
    text_analysis_node_sup env llm s =
      (0, Except.ok { analysis_result := some (some (noticePre ++ e)) }) ∧
    text_analysis_node_main env llm s =
      (0, Except.ok { analysis_result := some (some (noticePre ++ e)) }) ∧
    text_analysis_node_app env llm s =
      (0, Except.ok { analysis_result := some (some (noticePre ++ e)) }) := by
  refine ⟨?_, ?_, ?_⟩ <;>
    simp [text_analysis_node_sup, text_analysis_node_main, text_analysis_node_app, h]

/-- C4 (witness): the supervisor analyst on a concrete failed state. -/
theorem analyst_skips_llm_on_error_witness :
    text_analysis_node_sup none llmBoom stateWithError =
      (0, Except.ok { analysis_result := some (some (noticePre ++ invalidUrlMsg)) }) :=
  (analyst_skips_llm_on_error none llmBoom stateWithError invalidUrlMsg rfl).1

/-- C5 (counterexample): the backend/supervisor analyst consults no
credential — with the `GOOGLE_API_KEY` environment empty and no upstream
error it still performs one LLM invocation (the claim demands zero and a
distinct missing-credential error), and the collaborator's failure
escapes uncaught. -/
theorem missing_credential_counterexample :
    text_analysis_node_sup none llmBoom stateWithScript =
      (1, Except.error (("boom").toList)) := rfl

/-- C5 (amended): only the app.py analyst checks the credential: with no
upstream error and `GOOGLE_API_KEY` absent it returns the distinct
configuration error without invoking the LLM, while the
supervisor/backend and main variants invoke the LLM exactly once
regardless of the missing credential. -/
theorem missing_credential_amended (llm : LLM) (s : AgentState) (script : List Char)
    (h1 : s.error = none) (h2 : s.script_text = some script) :
    text_analysis_node_app none llm s =
      (0, Except.ok { error := some (some apiKeyMissingMsg) }) ∧
    (text_analysis_node_sup none llm s).1 = 1 ∧
    (text_analysis_node_main none llm s).1 = 1 := by
  refine ⟨?_, ?_, ?_⟩
  · simp [text_analysis_node_app, h1, h2]
  · rcases hr : llm.respond (prompt_sup script) with m | r <;>
      simp [text_analysis_node_sup, h1, h2, hr]
  · rcases hr : llm.respond (prompt_main script) with m | r <;>
      simp [text_analysis_node_main, h1, h2, hr]

/-- C5 (witness): the app analyst at a concrete loaded state with the
credential absent. -/
theorem missing_credential_amended_witness :
    text_analysis_node_app none llmBoom stateWithScript =
      (0, Except.ok { error := some (some apiKeyMissingMsg) }) :=
  (missing_credential_amended llmBoom stateWithScript (("hello script").toList) rfl rfl).1

/-- C6 (counterexample): in main.py the LLM call sits in no `try` block —
on a loaded state an exception raised by the collaborator leaves
`text_analysis_node` uncaught (`Except.error`) instead of being captured
into the state's `error` field. -/
theorem error_propagation_counterexample :
    text_analysis_node_main none llmBoom stateWithScript =
      (1, Except.error (("boom").toList)) := rfl

/-- C6 (amended): the loader never raises in any variant (it is a total
update function) and the app.py analyst captures an LLM exception into
`error` with its cause message preserved; but in the supervisor/backend
and main variants the same exception propagates uncaught across the node
boundary. -/
theorem error_capture_amended (llm : LLM) (s : AgentState) (script m k : List Char)
    (h1 : s.error = none) (h2 : s.script_text = some script)
    (ha : llm.respond (prompt_app script) = Except.error m)
    (hs : llm.respond (prompt_sup script) = Except.error m)
    (hm : llm.respond (prompt_main script) = Except.error m) :
    text_analysis_node_app (some k) llm s =
      (1, Except.ok { error := some (some (aiFailPre ++ m)) }) ∧
    text_analysis_node_sup (some k) llm s = (1, Except.error m) ∧
    text_analysis_node_main (some k) llm s = (1, Except.error m) := by
  refine ⟨?_, ?_, ?_⟩ <;>
    simp [text_analysis_node_app, text_analysis_node_sup, text_analysis_node_main,
      h1, h2, ha, hs, hm]

/-- C6 (witness): the app analyst wraps a concrete raised exception. -/
theorem error_capture_amended_witness :
    text_analysis_node_app (some (("key").toList)) llmBoom stateWithScript =
      (1, Except.ok { error := some (some (aiFailPre ++ ("boom").toList)) }) :=
  (error_capture_amended llmBoom stateWithScript (("hello script").toList)
    (("boom").toList) (("key").toList) rfl rfl rfl rfl rfl).1

/-- C7 (confirmed): each analyst's prompt embeds exactly the capped
prefix of the transcript (5000 characters for the supervisor/backend and
main variants, 10000 for app.py); for a transcript strictly longer than
the cap the embedded slice has exactly the cap's length, is not the full
text, and the prompt is strictly shorter than one embedding the full
text. -/
theorem prompt_truncation (s : List Char) (h : 5000 < s.length) :
    prompt_sup s = promptHead_sup ++ s.take 5000 ++ promptTail_sup ∧
    prompt_main s = promptHead_main ++ s.take 5000 ++ promptTail_main ∧
    (s.take 5000).length = 5000 ∧ s.take 5000 ≠ s ∧
    (prompt_sup s).length < promptHead_sup.length + s.length + promptTail_sup.length ∧
    (10000 < s.length →
      prompt_app s = promptHead_app ++ s.take 10000 ++ promptTail_app ∧
      (s.take 10000).length = 10000 ∧ s.take 10000 ≠ s) := by
  have hlen5 : (s.take 5000).length = 5000 := by
    rw [List.length_take]
    omega
  refine ⟨rfl, rfl, hlen5, ?_, ?_, ?_⟩
  · intro heq
    have := congrArg List.length heq
    rw [hlen5] at this
    omega
  · simp only [prompt_sup, List.length_append, hlen5]
    omega
  · intro h10
    have hlen10 : (s.take 10000).length = 10000 := by
      rw [List.length_take]
      omega
    refine ⟨rfl, hlen10, ?_⟩
    intro heq
    have := congrArg List.length heq
    rw [hlen10] at this
    omega

/-- C7 (witness): a 10001-character transcript is truncated by every
variant. -/
theorem prompt_truncation_witness :
    5000 < longScript.length ∧ longScript.take 5000 ≠ longScript := by
  have h : 5000 < longScript.length := by
    unfold longScript
    rw [List.length_replicate]
    omega
  exact ⟨h, (prompt_truncation longScript h).2.2.2.1⟩

/-- C8 (confirmed): when the caption listing raises
`TranscriptsDisabled` or `NoTranscriptFound`, `get_video_script` returns
the captions-unavailable failure string, and the compiled supervisor
pipeline ends with `error` set to it, `script_text` equal to `None`, zero
LLM invocations, and the analyst's non-analysis notice. -/
theorem captions_unavailable_pipeline (url vid : List Char) (env : Option (List Char))
    (llm : LLM) (listing : Except ListingErr TranscriptList)
    (hv : extract_video_id url = some vid)
    (hl : listing = Except.error ListingErr.disabled ∨
          listing = Except.error ListingErr.notFound) :
    get_video_script_sup listing = captionsUnavailableMsg ∧
    run_graph_sup listing env llm url =
      (0, Except.ok { youtube_url := url, video_id := none, script_text := none,
                      analysis_result := some (noticePre ++ captionsUnavailableMsg),
                      error := some captionsUnavailableMsg }) := by
  have hpre : errTok.isPrefixOf captionsUnavailableMsg = true := by decide
  rcases hl with rfl | rfl <;>
    refine ⟨rfl, ?_⟩ <;>
    simp [run_graph_sup, script_loader_node, get_video_script_sup, hv, hpre,
      applyUpdate, text_analysis_node_sup]

/-- C8 (witness): the concrete short-URL input with captions disabled. -/
theorem captions_unavailable_pipeline_witness :
    run_graph_sup (Except.error ListingErr.disabled) none llmBoom
        (("https://youtu.be/dQw4w9WgXcQ").toList) =
      (0, Except.ok { youtube_url := ("https://youtu.be/dQw4w9WgXcQ").toList,
                      video_id := none, script_text := none,
                      analysis_result := some (noticePre ++ captionsUnavailableMsg),
                      error := some captionsUnavailableMsg }) :=
  (captions_unavailable_pipeline (("https://youtu.be/dQw4w9WgXcQ").toList) idDQw none
    llmBoom (Except.error ListingErr.disabled) (by decide) (Or.inl rfl)).2

/-- C9 (confirmed): on a successfully fetched track, `get_video_script`
returns the track's segment texts joined by `"\n"` with every newline then
replaced by a space — equivalently, the newline-scrubbed segments joined
by single spaces — and the result contains no newline character. -/
theorem transcript_normalization (tl : TranscriptList) (tr : Track)
    (hsel : select_sup tl = some tr) :
    get_video_script_sup (Except.ok tl) = formatNormalize tr.segments ∧
    formatNormalize tr.segments =
      List.intercalate [' '] (tr.segments.map (List.map swapNl)) ∧
    (∀ c ∈ formatNormalize tr.segments, c ≠ '\n') ∧
    (∀ tl2 tr2, select_app tl2 = some tr2 →
      get_video_script_app (Except.ok tl2) = formatNormalize tr2.segments) := by
  refine ⟨?_, formatNormalize_eq tr.segments, formatNormalize_no_newline tr.segments, ?_⟩
  · simp [get_video_script_sup, hsel]
  · intro tl2 tr2 hsel2
    simp [get_video_script_app, hsel2]

/-- C9 (witness): a concrete manual Korean track with an embedded newline
is normalised to a single-line string. -/
theorem transcript_normalization_witness :
    select_sup tlKoManual = some koManTrack ∧
    get_video_script_sup (Except.ok tlKoManual) = formatNormalize koManTrack.segments ∧
    formatNormalize koManTrack.segments = ("수동 자막 둘째 줄").toList := by
  have h : select_sup tlKoManual = some koManTrack := by decide
  exact ⟨h, (transcript_normalization tlKoManual koManTrack h).1, by decide⟩

/-- C10 (confirmed): if caption retrieval succeeds but the normalised
transcript itself starts with `ERROR`, the loader misroutes it: the
returned update stores the transcript text in `error` and sets
`script_text` to `None` instead of publishing the script. -/
theorem error_prefix_misclassification (s : AgentState) (tl : TranscriptList)
    (tr : Track) (vid : List Char)
    (hv : extract_video_id s.youtube_url = some vid)
    (hsel : select_sup tl = some tr)
    (hpre : errTok.isPrefixOf (formatNormalize tr.segments) = true) :
    script_loader_node (get_video_script_sup (Except.ok tl)) s =
      { error := some (some (formatNormalize tr.segments)), script_text := some none } := by
  simp [script_loader_node, get_video_script_sup, hv, hsel, hpre]

/-- C10 (witness): a concrete caption whose text starts with `ERROR` is
reported as a failure with `script_text = None`. -/
theorem error_prefix_misclassification_witness :
    script_loader_node (get_video_script_sup (Except.ok tlErrScript)) stateWatchUrl =
      { error := some (some (formatNormalize errScriptTrack.segments)),
        script_text := some none } :=
  error_prefix_misclassification stateWatchUrl tlErrScript errScriptTrack idDQw
    (by decide) (by decide) (by decide)
